import Mathlib

/-!
Shallow embedding of the revenue-statistics service
(`src/services/stats/revenue.service.ts`) of the coffee-craft-service
repository, together with the order data model from `prisma/schema.prisma`.

Modelling choices:
* Monetary `Decimal` columns (`finalTotal`, `shippingFee`, `discountAmount`)
  are modelled as exact rationals `ℚ`.
* `DateTime` values (`createdAt`, resolved window bounds) are modelled as
  integer timestamps (milliseconds).
* The relational store is a list of orders; `prisma.order.aggregate` and
  `prisma.order.groupBy` are modelled by explicit filtering, summing and
  grouping over that list.  Prisma returns `null` for `_sum` aggregates over
  an empty row set; this is modelled with `Option ℚ`.
* The JavaScript idiom `x?.toNumber() || 0` is modelled by `Option.getD 0`:
  among the numbers that can arise the only falsy value is `0`, and
  `0 || 0 = 0`, so the two agree on exact arithmetic.
-/

namespace CoffeeCraft

/-- `enum OrderStatus` from `prisma/schema.prisma` (declaration order). -/
inductive OrderStatus where
  | PENDING
  | CONFIRMED
  | SHIPPED
  | DELIVERED
  | CANCELED
deriving DecidableEq, Repr

/-- `enum PaymentStatus` from `prisma/schema.prisma` (declaration order). -/
inductive PaymentStatus where
  | PENDING
  | PAID
  | FAILED
  | REFUNDED
deriving DecidableEq, Repr

/-- `enum PaymentMethod` from `prisma/schema.prisma` (declaration order). -/
inductive PaymentMethod where
  | COD
  | CREDIT_CARD
  | VNPAY
deriving DecidableEq, Repr

/-- The fields of `model Order` used by the statistics service. -/
structure Order where
  id : Nat
  createdAt : Int
  status : OrderStatus
  paymentStatus : PaymentStatus
  paymentMethod : PaymentMethod
  finalTotal : ℚ
  shippingFee : ℚ
  discountAmount : ℚ
deriving DecidableEq, Repr

/-- A resolved period window, as produced by `getDateRangeFromPeriod`. -/
structure DateRange where
  startDate : Int
  endDate : Int
deriving DecidableEq, Repr

/-- The Prisma filter `createdAt: { gte: startDate, lte: endDate }`. -/
def inWindow (r : DateRange) (o : Order) : Bool :=
  decide (r.startDate ≤ o.createdAt) && decide (o.createdAt ≤ r.endDate)

/-- `relevantStatuses` from the service: statuses contributing to revenue. -/
def relevantStatuses : List OrderStatus :=
  [OrderStatus.CONFIRMED, OrderStatus.SHIPPED, OrderStatus.DELIVERED]

/-- The Prisma filter used by `getRevenueSummary`, `getRevenueByPaymentMethod`
and `getOrderFinancials`: in the window and `status: { in: relevantStatuses }`. -/
def revenueFilter (r : DateRange) (o : Order) : Bool :=
  inWindow r o && relevantStatuses.contains o.status

/-- Prisma's `_sum` over a `Decimal` column: `null` (here `none`) when no row
matches, otherwise the exact sum. -/
def aggregateSum (f : Order → ℚ) (l : List Order) : Option ℚ :=
  match l with
  | [] => none
  | _ => some ((l.map f).sum)

/-- Models `x?.toNumber() || 0` on an optional exact decimal. -/
def toNumberOrZero (x : Option ℚ) : ℚ :=
  x.getD 0

/-- One row of a `prisma.order.groupBy` result: the grouping key together
with `_sum.finalTotal` and `_count.id`. -/
structure GroupRow (K : Type) where
  key : K
  sumFinalTotal : Option ℚ
  countId : Nat
deriving DecidableEq, Repr

/-- `prisma.order.groupBy({ by: [key], _sum: { finalTotal }, _count: { id } })`
over the already-filtered row set `l`: one row per distinct key value. -/
def groupByKey {K : Type} [DecidableEq K] (key : Order → K) (l : List Order) :
    List (GroupRow K) :=
  ((l.map key).dedup).map (fun k =>
    let grp := l.filter (fun o => decide (key o = k))
    ⟨k, aggregateSum (fun o => o.finalTotal) grp, grp.length⟩)

/-- Lookup in the JavaScript `Map` built by `results.forEach(... map.set ...)`:
a later `set` on the same key overwrites an earlier one, so the lookup finds
the last row carrying the key. -/
def lookupRow {K : Type} [DecidableEq K] (rows : List (GroupRow K)) (k : K) :
    Option (GroupRow K) :=
  rows.reverse.find? (fun row => decide (row.key = k))

/-- `Object.values(PaymentMethod)` (declaration order). -/
def allPaymentMethods : List PaymentMethod :=
  [PaymentMethod.COD, PaymentMethod.CREDIT_CARD, PaymentMethod.VNPAY]

/-- `Object.values(OrderStatus)` (declaration order). -/
def allOrderStatuses : List OrderStatus :=
  [OrderStatus.PENDING, OrderStatus.CONFIRMED, OrderStatus.SHIPPED,
   OrderStatus.DELIVERED, OrderStatus.CANCELED]

/-- `Object.values(PaymentStatus)` (declaration order). -/
def allPaymentStatuses : List PaymentStatus :=
  [PaymentStatus.PENDING, PaymentStatus.PAID, PaymentStatus.FAILED,
   PaymentStatus.REFUNDED]

/-- Result shape of `getRevenueSummary`. -/
structure RevenueSummary where
  startDate : Int
  endDate : Int
  totalRevenue : ℚ
  totalOrders : Nat
  averageOrderValue : ℚ
deriving DecidableEq, Repr

/-- One entry of the `getRevenueByPaymentMethod` result. -/
structure RevenueByPaymentMethodEntry where
  paymentMethod : PaymentMethod
  totalRevenue : ℚ
  orderCount : Nat
deriving DecidableEq, Repr

/-- One entry of the `getOrdersByStatus` result. -/
structure OrdersByStatusEntry where
  status : OrderStatus
  orderCount : Nat
  totalValue : ℚ
deriving DecidableEq, Repr

/-- One entry of the `getOrdersByPaymentStatus` result. -/
structure OrdersByPaymentStatusEntry where
  paymentStatus : PaymentStatus
  orderCount : Nat
  totalValue : ℚ
deriving DecidableEq, Repr

/-- Result shape of `getOrderFinancials`. -/
structure OrderFinancials where
  startDate : Int
  endDate : Int
  totalShippingFee : ℚ
  totalDiscountAmount : ℚ
deriving DecidableEq, Repr

/-- Body of `getRevenueSummary` after period resolution: aggregate over
in-window orders with a revenue-contributing status. -/
def getRevenueSummaryRange (r : DateRange) (store : List Order) :
    RevenueSummary :=
  let filtered := store.filter (revenueFilter r)
  let totalRevenue := toNumberOrZero (aggregateSum (fun o => o.finalTotal) filtered)
  let totalOrders := filtered.length
  let averageOrderValue :=
    if totalOrders > 0 then totalRevenue / (totalOrders : ℚ) else 0
  ⟨r.startDate, r.endDate, totalRevenue, totalOrders, averageOrderValue⟩

/-- The mapping step of `getRevenueByPaymentMethod`: build the map from the
grouped rows, then enumerate every payment method with zero defaults. -/
def revenueByPaymentMethodFromRows (rows : List (GroupRow PaymentMethod)) :
    List RevenueByPaymentMethodEntry :=
  allPaymentMethods.map (fun method =>
    ⟨method,
     ((lookupRow rows method).map (fun row => toNumberOrZero row.sumFinalTotal)).getD 0,
     ((lookupRow rows method).map (fun row => row.countId)).getD 0⟩)

/-- Body of `getRevenueByPaymentMethod` after period resolution. -/
def getRevenueByPaymentMethodRange (r : DateRange) (store : List Order) :
    List RevenueByPaymentMethodEntry :=
  revenueByPaymentMethodFromRows
    (groupByKey (fun o => o.paymentMethod) (store.filter (revenueFilter r)))

/-- The mapping step of `getOrdersByStatus`: enumerate every order status with
zero defaults over the grouped rows. -/
def ordersByStatusFromRows (rows : List (GroupRow OrderStatus)) :
    List OrdersByStatusEntry :=
  allOrderStatuses.map (fun st =>
    ⟨st,
     ((lookupRow rows st).map (fun row => row.countId)).getD 0,
     ((lookupRow rows st).map (fun row => toNumberOrZero row.sumFinalTotal)).getD 0⟩)

/-- Body of `getOrdersByStatus` after period resolution: groups ALL in-window
orders by status, with no status filter. -/
def getOrdersByStatusRange (r : DateRange) (store : List Order) :
    List OrdersByStatusEntry :=
  ordersByStatusFromRows
    (groupByKey (fun o => o.status) (store.filter (inWindow r)))

/-- The mapping step of `getOrdersByPaymentStatus`. -/
def ordersByPaymentStatusFromRows (rows : List (GroupRow PaymentStatus)) :
    List OrdersByPaymentStatusEntry :=
  allPaymentStatuses.map (fun st =>
    ⟨st,
     ((lookupRow rows st).map (fun row => row.countId)).getD 0,
     ((lookupRow rows st).map (fun row => toNumberOrZero row.sumFinalTotal)).getD 0⟩)

/-- Body of `getOrdersByPaymentStatus` after period resolution: groups ALL
in-window orders by payment status, with no status filter. -/
def getOrdersByPaymentStatusRange (r : DateRange) (store : List Order) :
    List OrdersByPaymentStatusEntry :=
  ordersByPaymentStatusFromRows
    (groupByKey (fun o => o.paymentStatus) (store.filter (inWindow r)))

/-- Body of `getOrderFinancials` after period resolution: sums of
`shippingFee` and `discountAmount` over revenue-contributing orders. -/
def getOrderFinancialsRange (r : DateRange) (store : List Order) :
    OrderFinancials :=
  let filtered := store.filter (revenueFilter r)
  ⟨r.startDate, r.endDate,
   toNumberOrZero (aggregateSum (fun o => o.shippingFee) filtered),
   toNumberOrZero (aggregateSum (fun o => o.discountAmount) filtered)⟩

/-- The `period` selector of `PeriodQuery`. -/
inductive Period where
  | daily
  | weekly
  | monthly
  | yearly
  | custom
deriving DecidableEq, Repr

/-- Error raised by the period resolver on bad custom bounds. -/
inductive StatsError where
  | InvalidRangeError
deriving DecidableEq, Repr

/-- The query-string parameters accepted by every statistics operation. -/
structure PeriodQuery where
  period : Option Period
  startDate : Option String
  endDate : Option String

/-- Gregorian leap-year test, used to validate parsed calendar dates. -/
def isLeapYear (y : Nat) : Bool :=
  (y % 4 == 0 && y % 100 != 0) || y % 400 == 0

/-- Number of days in month `m` of year `y`. -/
def daysInMonth (y m : Nat) : Nat :=
  if m = 2 then (if isLeapYear y then 29 else 28)
  else if m = 4 ∨ m = 6 ∨ m = 9 ∨ m = 11 then 30
  else 31

/-- A validated calendar date. -/
structure CalDate where
  year : Nat
  month : Nat
  day : Nat
deriving DecidableEq, Repr

/-- Split a character list on the dash separator of `YYYY-MM-DD`. -/
def splitDash : List Char → List (List Char)
  | [] => [[]]
  | c :: rest =>
    match splitDash rest with
    | [] => if c = '-' then [[], []] else [[c]]
    | g :: gs => if c = '-' then [] :: g :: gs else (c :: g) :: gs

/-- Parse a non-empty all-digit character list as a natural number. -/
def digitsToNat? (cs : List Char) : Option Nat :=
  if cs ≠ [] ∧ cs.all Char.isDigit then
    some (cs.foldl (fun n c => n * 10 + (c.toNat - 48)) 0)
  else none

/-- Modelled from the spec: `startDate`/`endDate` query parameters are
`YYYY-MM-DD` strings, "each parsed as a calendar date", failing when
unparseable.  (The parser lives in `src/utils/period.util.ts`, which is not
part of the provided sources.)  Returns `none` unless the string is a valid
`YYYY-MM-DD` calendar date. -/
def parseDate (s : String) : Option CalDate :=
  match splitDash s.data with
  | [ys, ms, ds] =>
    if ys.length = 4 ∧ ms.length = 2 ∧ ds.length = 2 then
      match digitsToNat? ys, digitsToNat? ms, digitsToNat? ds with
      | some y, some m, some d =>
        if 1 ≤ m ∧ m ≤ 12 ∧ 1 ≤ d ∧ d ≤ daysInMonth y m then
          some ⟨y, m, d⟩
        else none
      | _, _, _ => none
    else none
  | _ => none

/-- Days since 1970-01-01 of a calendar date (civil-calendar conversion). -/
def daysFromCivil (dt : CalDate) : Int :=
  let y : Int := if dt.month ≤ 2 then (dt.year : Int) - 1 else (dt.year : Int)
  let era : Int := (if y ≥ 0 then y else y - 399) / 400
  let yoe : Int := y - era * 400
  let mp : Int := ((dt.month : Int) + 9) % 12
  let doy : Int := (153 * mp + 2) / 5 + (dt.day : Int) - 1
  let doe : Int := yoe * 365 + yoe / 4 - yoe / 100 + doy
  era * 146097 + doe - 719468

/-- Milliseconds in a day. -/
def dayMs : Int := 86400000

/-- Timestamp (start of day, UTC) of a calendar date. -/
def dateToTimestamp (dt : CalDate) : Int :=
  daysFromCivil dt * dayMs

/-- Modelled from the spec: `getDateRangeFromPeriod` of
`src/utils/period.util.ts` (not part of the provided sources).  Per the spec:
no period defaults to a trailing-30-day window ending now; `daily` runs from
the beginning of the current day to now; `weekly`/`monthly`/`yearly` are
trailing 7/30/365-day windows; `custom` requires both `startDate` and
`endDate`, parses each as a calendar date, and fails with
`InvalidRangeError` if either is missing, unparseable, or
`startDate > endDate`. -/
def getDateRangeFromPeriod (now : Int) (period : Option Period)
    (startDate endDate : Option String) : Except StatsError DateRange :=
  match period with
  | none => Except.ok ⟨now - 30 * dayMs, now⟩
  | some Period.daily => Except.ok ⟨now - now % dayMs, now⟩
  | some Period.weekly => Except.ok ⟨now - 7 * dayMs, now⟩
  | some Period.monthly => Except.ok ⟨now - 30 * dayMs, now⟩
  | some Period.yearly => Except.ok ⟨now - 365 * dayMs, now⟩
  | some Period.custom =>
    match startDate, endDate with
    | some ss, some es =>
      match parseDate ss, parseDate es with
      | some sd, some ed =>
        let s := dateToTimestamp sd
        let e := dateToTimestamp ed
        if s > e then Except.error StatsError.InvalidRangeError
        else Except.ok ⟨s, e⟩
      | _, _ => Except.error StatsError.InvalidRangeError
    | _, _ => Except.error StatsError.InvalidRangeError

/-- `getRevenueSummary(query)`: resolve the period, then aggregate. -/
def getRevenueSummary (now : Int) (q : PeriodQuery) (store : List Order) :
    Except StatsError RevenueSummary :=
  (getDateRangeFromPeriod now q.period q.startDate q.endDate).map
    (fun r => getRevenueSummaryRange r store)

/-- `getRevenueByPaymentMethod(query)`: resolve the period, then group. -/
def getRevenueByPaymentMethod (now : Int) (q : PeriodQuery)
    (store : List Order) : Except StatsError (List RevenueByPaymentMethodEntry) :=
  (getDateRangeFromPeriod now q.period q.startDate q.endDate).map
    (fun r => getRevenueByPaymentMethodRange r store)

/-- `getOrdersByStatus(query)`: resolve the period, then group. -/
def getOrdersByStatus (now : Int) (q : PeriodQuery) (store : List Order) :
    Except StatsError (List OrdersByStatusEntry) :=
  (getDateRangeFromPeriod now q.period q.startDate q.endDate).map
    (fun r => getOrdersByStatusRange r store)

/-- `getOrdersByPaymentStatus(query)`: resolve the period, then group. -/
def getOrdersByPaymentStatus (now : Int) (q : PeriodQuery) (store : List Order) :
    Except StatsError (List OrdersByPaymentStatusEntry) :=
  (getDateRangeFromPeriod now q.period q.startDate q.endDate).map
    (fun r => getOrdersByPaymentStatusRange r store)

/-- `getOrderFinancials(query)`: resolve the period, then aggregate. -/
def getOrderFinancials (now : Int) (q : PeriodQuery) (store : List Order) :
    Except StatsError OrderFinancials :=
  (getDateRangeFromPeriod now q.period q.startDate q.endDate).map
    (fun r => getOrderFinancialsRange r store)

/-- Total `orderCount` reported for a status across the breakdown entries. -/
def countForStatus (out : List OrdersByStatusEntry) (st : OrderStatus) : Nat :=
  ((out.filter (fun e => decide (e.status = st))).map (fun e => e.orderCount)).sum

/-- Total `totalValue` reported for a status across the breakdown entries. -/
def valueForStatus (out : List OrdersByStatusEntry) (st : OrderStatus) : ℚ :=
  ((out.filter (fun e => decide (e.status = st))).map (fun e => e.totalValue)).sum

/-- Total `orderCount` reported for a payment status across the entries. -/
def countForPaymentStatus (out : List OrdersByPaymentStatusEntry)
    (st : PaymentStatus) : Nat :=
  ((out.filter (fun e => decide (e.paymentStatus = st))).map
    (fun e => e.orderCount)).sum

/-- Total `totalValue` reported for a payment status across the entries. -/
def valueForPaymentStatus (out : List OrdersByPaymentStatusEntry)
    (st : PaymentStatus) : ℚ :=
  ((out.filter (fun e => decide (e.paymentStatus = st))).map
    (fun e => e.totalValue)).sum

/-- A concrete window used to instantiate universally quantified theorems. -/
def sampleRange : DateRange := ⟨0, 10⟩

/-- A concrete revenue-contributing order inside `sampleRange`. -/
def sampleOrder : Order :=
  ⟨1, 5, OrderStatus.CONFIRMED, PaymentStatus.PAID, PaymentMethod.COD, 100, 10, 2⟩

/-- A concrete PENDING order inside `sampleRange`. -/
def samplePending : Order :=
  ⟨2, 3, OrderStatus.PENDING, PaymentStatus.PENDING, PaymentMethod.VNPAY, 50, 5, 1⟩

/-- A concrete order whose `createdAt` sits exactly on the window start. -/
def sampleEdgeOrder : Order :=
  ⟨3, 0, OrderStatus.DELIVERED, PaymentStatus.PAID, PaymentMethod.CREDIT_CARD, 70, 0, 0⟩

/-- A concrete order strictly before the window start. -/
def sampleEarlyOrder : Order :=
  ⟨4, -1, OrderStatus.DELIVERED, PaymentStatus.PAID, PaymentMethod.CREDIT_CARD, 70, 0, 0⟩

/-- Concrete grouped rows used to instantiate row-order independence. -/
def sampleRows : List (GroupRow PaymentMethod) :=
  [⟨PaymentMethod.COD, some 5, 1⟩, ⟨PaymentMethod.VNPAY, some 3, 2⟩]

theorem toNumberOrZero_aggregateSum (f : Order → ℚ) (l : List Order) :
    toNumberOrZero (aggregateSum f l) = (l.map f).sum := by
  cases l <;> simp [aggregateSum, toNumberOrZero]

theorem find?_decide_eq {α : Type} [DecidableEq α] (l : List α) (k : α) :
    l.find? (fun x => decide (x = k)) = if k ∈ l then some k else none := by
  induction l with
  | nil => rfl
  | cons a t ih =>
    by_cases h : a = k
    · subst h
      simp
    · rw [List.find?_cons_of_neg t (by simpa using h), ih]
      have hka : ¬k = a := fun e => h e.symm
      by_cases hk : k ∈ t <;> simp [hk, List.mem_cons, hka]

theorem lookupRow_groupByKey {K : Type} [DecidableEq K] (key : Order → K)
    (l : List Order) (k : K) :
    lookupRow (groupByKey key l) k =
      if k ∈ l.map key then
        some ⟨k,
          aggregateSum (fun o => o.finalTotal)
            (l.filter (fun o => decide (key o = k))),
          (l.filter (fun o => decide (key o = k))).length⟩
      else none := by
  unfold lookupRow groupByKey
  rw [← List.map_reverse, List.find?_map]
  have hcomp :
      ((fun row : GroupRow K => decide (row.key = k)) ∘
        (fun k0 =>
          (⟨k0, aggregateSum (fun o => o.finalTotal)
              (l.filter (fun o => decide (key o = k0))),
            (l.filter (fun o => decide (key o = k0))).length⟩ : GroupRow K))) =
      fun k0 => decide (k0 = k) := by
    funext k0
    rfl
  rw [hcomp, find?_decide_eq]
  by_cases h : k ∈ (l.map key).dedup.reverse
  · rw [if_pos h, if_pos (List.mem_dedup.mp (List.mem_reverse.mp h))]
    rfl
  · rw [if_neg h,
      if_neg (fun hm => h (List.mem_reverse.mpr (List.mem_dedup.mpr hm)))]
    rfl

theorem lookupRow_countId {K : Type} [DecidableEq K] (key : Order → K)
    (l : List Order) (k : K) :
    ((lookupRow (groupByKey key l) k).map (fun row => row.countId)).getD 0
      = (l.filter (fun o => decide (key o = k))).length := by
  rw [lookupRow_groupByKey]
  by_cases h : k ∈ l.map key
  · rw [if_pos h]
    rfl
  · rw [if_neg h]
    have hnil : l.filter (fun o => decide (key o = k)) = [] := by
      rw [List.filter_eq_nil_iff]
      intro o ho hko
      exact h (List.mem_map.mpr ⟨o, ho, by simpa using hko⟩)
    rw [hnil]
    rfl

theorem lookupRow_sumFinal {K : Type} [DecidableEq K] (key : Order → K)
    (l : List Order) (k : K) :
    ((lookupRow (groupByKey key l) k).map
        (fun row => toNumberOrZero row.sumFinalTotal)).getD 0
      = ((l.filter (fun o => decide (key o = k))).map (fun o => o.finalTotal)).sum := by
  rw [lookupRow_groupByKey]
  by_cases h : k ∈ l.map key
  · rw [if_pos h]
    simp [toNumberOrZero_aggregateSum]
  · rw [if_neg h]
    have hnil : l.filter (fun o => decide (key o = k)) = [] := by
      rw [List.filter_eq_nil_iff]
      intro o ho hko
      exact h (List.mem_map.mpr ⟨o, ho, by simpa using hko⟩)
    rw [hnil]
    rfl

theorem countForStatus_range (r : DateRange) (s : List Order) (st : OrderStatus) :
    countForStatus (getOrdersByStatusRange r s) st
      = ((s.filter (inWindow r)).filter (fun o => decide (o.status = st))).length := by
  have key := lookupRow_countId (fun o => o.status) (s.filter (inWindow r)) st
  cases st <;>
    simpa [countForStatus, getOrdersByStatusRange, ordersByStatusFromRows,
      allOrderStatuses] using key

theorem valueForStatus_range (r : DateRange) (s : List Order) (st : OrderStatus) :
    valueForStatus (getOrdersByStatusRange r s) st
      = (((s.filter (inWindow r)).filter (fun o => decide (o.status = st))).map
          (fun o => o.finalTotal)).sum := by
  have key := lookupRow_sumFinal (fun o => o.status) (s.filter (inWindow r)) st
  cases st <;>
    simpa [valueForStatus, getOrdersByStatusRange, ordersByStatusFromRows,
      allOrderStatuses] using key

theorem countForPaymentStatus_range (r : DateRange) (s : List Order)
    (st : PaymentStatus) :
    countForPaymentStatus (getOrdersByPaymentStatusRange r s) st
      = ((s.filter (inWindow r)).filter
          (fun o => decide (o.paymentStatus = st))).length := by
  have key := lookupRow_countId (fun o => o.paymentStatus) (s.filter (inWindow r)) st
  cases st <;>
    simpa [countForPaymentStatus, getOrdersByPaymentStatusRange,
      ordersByPaymentStatusFromRows, allPaymentStatuses] using key

theorem valueForPaymentStatus_range (r : DateRange) (s : List Order)
    (st : PaymentStatus) :
    valueForPaymentStatus (getOrdersByPaymentStatusRange r s) st
      = (((s.filter (inWindow r)).filter
          (fun o => decide (o.paymentStatus = st))).map
            (fun o => o.finalTotal)).sum := by
  have key := lookupRow_sumFinal (fun o => o.paymentStatus) (s.filter (inWindow r)) st
  cases st <;>
    simpa [valueForPaymentStatus, getOrdersByPaymentStatusRange,
      ordersByPaymentStatusFromRows, allPaymentStatuses] using key

theorem length_eq_sum_status (w : List Order) :
    (allOrderStatuses.map
      (fun st => (w.filter (fun o => decide (o.status = st))).length)).sum
      = w.length := by
  induction w with
  | nil => rfl
  | cons o t ih =>
    cases ho : o.status <;>
      simp [allOrderStatuses, List.filter_cons, ho] at ih ⊢ <;> omega

theorem sum_eq_sum_status (w : List Order) :
    (allOrderStatuses.map
      (fun st => ((w.filter (fun o => decide (o.status = st))).map
        (fun o => o.finalTotal)).sum)).sum
      = (w.map (fun o => o.finalTotal)).sum := by
  induction w with
  | nil => simp
  | cons o t ih =>
    cases ho : o.status <;>
      simp [allOrderStatuses, List.filter_cons, ho] at ih ⊢ <;> linarith [ih]

theorem length_eq_sum_paymentStatus (w : List Order) :
    (allPaymentStatuses.map
      (fun st => (w.filter (fun o => decide (o.paymentStatus = st))).length)).sum
      = w.length := by
  induction w with
  | nil => rfl
  | cons o t ih =>
    cases ho : o.paymentStatus <;>
      simp [allPaymentStatuses, List.filter_cons, ho] at ih ⊢ <;> omega

theorem sum_eq_sum_paymentStatus (w : List Order) :
    (allPaymentStatuses.map
      (fun st => ((w.filter (fun o => decide (o.paymentStatus = st))).map
        (fun o => o.finalTotal)).sum)).sum
      = (w.map (fun o => o.finalTotal)).sum := by
  induction w with
  | nil => simp
  | cons o t ih =>
    cases ho : o.paymentStatus <;>
      simp [allPaymentStatuses, List.filter_cons, ho] at ih ⊢ <;> linarith [ih]

theorem ordersByStatus_total_count (r : DateRange) (s : List Order) :
    ((getOrdersByStatusRange r s).map (fun e => e.orderCount)).sum
      = (s.filter (inWindow r)).length := by
  have h := length_eq_sum_status (s.filter (inWindow r))
  simpa [getOrdersByStatusRange, ordersByStatusFromRows, allOrderStatuses,
    lookupRow_countId] using h

theorem ordersByStatus_total_value (r : DateRange) (s : List Order) :
    ((getOrdersByStatusRange r s).map (fun e => e.totalValue)).sum
      = ((s.filter (inWindow r)).map (fun o => o.finalTotal)).sum := by
  have h := sum_eq_sum_status (s.filter (inWindow r))
  simpa [getOrdersByStatusRange, ordersByStatusFromRows, allOrderStatuses,
    lookupRow_sumFinal] using h

theorem ordersByPaymentStatus_total_count (r : DateRange) (s : List Order) :
    ((getOrdersByPaymentStatusRange r s).map (fun e => e.orderCount)).sum
      = (s.filter (inWindow r)).length := by
  have h := length_eq_sum_paymentStatus (s.filter (inWindow r))
  simpa [getOrdersByPaymentStatusRange, ordersByPaymentStatusFromRows,
    allPaymentStatuses, lookupRow_countId] using h

theorem ordersByPaymentStatus_total_value (r : DateRange) (s : List Order) :
    ((getOrdersByPaymentStatusRange r s).map (fun e => e.totalValue)).sum
      = ((s.filter (inWindow r)).map (fun o => o.finalTotal)).sum := by
  have h := sum_eq_sum_paymentStatus (s.filter (inWindow r))
  simpa [getOrdersByPaymentStatusRange, ordersByPaymentStatusFromRows,
    allPaymentStatuses, lookupRow_sumFinal] using h

theorem lookupRow_eq_none_of_no_key {K : Type} [DecidableEq K]
    (rows : List (GroupRow K)) (k : K) (h : ∀ row ∈ rows, ¬row.key = k) :
    lookupRow rows k = none := by
  unfold lookupRow
  rw [List.find?_eq_none]
  intro row hrow
  simpa using h row (List.mem_reverse.mp hrow)

theorem mem_allPaymentMethods (m : PaymentMethod) : m ∈ allPaymentMethods := by
  cases m <;> simp [allPaymentMethods]

theorem mem_allOrderStatuses (st : OrderStatus) : st ∈ allOrderStatuses := by
  cases st <;> simp [allOrderStatuses]

theorem mem_allPaymentStatuses (st : PaymentStatus) : st ∈ allPaymentStatuses := by
  cases st <;> simp [allPaymentStatuses]

theorem rbpm_filter_length (rows : List (GroupRow PaymentMethod))
    (m : PaymentMethod) :
    ((revenueByPaymentMethodFromRows rows).filter
      (fun e => decide (e.paymentMethod = m))).length = 1 := by
  cases m <;> rfl

theorem obs_filter_length (rows : List (GroupRow OrderStatus))
    (st : OrderStatus) :
    ((ordersByStatusFromRows rows).filter
      (fun e => decide (e.status = st))).length = 1 := by
  cases st <;> rfl

theorem obps_filter_length (rows : List (GroupRow PaymentStatus))
    (st : PaymentStatus) :
    ((ordersByPaymentStatusFromRows rows).filter
      (fun e => decide (e.paymentStatus = st))).length = 1 := by
  cases st <;> rfl

theorem rbpm_zero_entry (rows : List (GroupRow PaymentMethod))
    (m : PaymentMethod) (h : ∀ row ∈ rows, ¬row.key = m) :
    (⟨m, 0, 0⟩ : RevenueByPaymentMethodEntry)
      ∈ revenueByPaymentMethodFromRows rows := by
  unfold revenueByPaymentMethodFromRows
  refine List.mem_map.mpr ⟨m, mem_allPaymentMethods m, ?_⟩
  rw [lookupRow_eq_none_of_no_key rows m h]
  rfl

theorem obs_zero_entry (rows : List (GroupRow OrderStatus))
    (st : OrderStatus) (h : ∀ row ∈ rows, ¬row.key = st) :
    (⟨st, 0, 0⟩ : OrdersByStatusEntry) ∈ ordersByStatusFromRows rows := by
  unfold ordersByStatusFromRows
  refine List.mem_map.mpr ⟨st, mem_allOrderStatuses st, ?_⟩
  rw [lookupRow_eq_none_of_no_key rows st h]
  rfl

theorem obps_zero_entry (rows : List (GroupRow PaymentStatus))
    (st : PaymentStatus) (h : ∀ row ∈ rows, ¬row.key = st) :
    (⟨st, 0, 0⟩ : OrdersByPaymentStatusEntry)
      ∈ ordersByPaymentStatusFromRows rows := by
  unfold ordersByPaymentStatusFromRows
  refine List.mem_map.mpr ⟨st, mem_allPaymentStatuses st, ?_⟩
  rw [lookupRow_eq_none_of_no_key rows st h]
  rfl

theorem groupByKey_no_key {K : Type} [DecidableEq K] (key : Order → K)
    (l : List Order) (k : K) (h : ∀ o ∈ l, ¬key o = k) :
    ∀ row ∈ groupByKey key l, ¬row.key = k := by
  intro row hrow
  unfold groupByKey at hrow
  obtain ⟨k0, hk0, hrfl⟩ := List.mem_map.mp hrow
  obtain ⟨o, ho, hko⟩ := List.mem_map.mp (List.mem_dedup.mp hk0)
  subst hrfl
  simpa using fun e => h o ho (hko.trans e)

theorem lookupRow_perm {K : Type} [DecidableEq K]
    (rows₁ rows₂ : List (GroupRow K)) (hp : rows₁.Perm rows₂)
    (hn : (rows₁.map GroupRow.key).Nodup) (k : K) :
    lookupRow rows₁ k = lookupRow rows₂ k := by
  cases h1 : lookupRow rows₁ k with
  | none =>
    simp only [lookupRow] at h1
    have hno : ∀ row ∈ rows₁, ¬row.key = k := by
      intro row hrow
      simpa using List.find?_eq_none.mp h1 row (List.mem_reverse.mpr hrow)
    exact (lookupRow_eq_none_of_no_key rows₂ k
      (fun row hrow => hno row (hp.mem_iff.mpr hrow))).symm
  | some row =>
    simp only [lookupRow] at h1
    have hmem1 : row ∈ rows₁ := List.mem_reverse.mp (List.mem_of_find?_eq_some h1)
    have hkey : row.key = k := by simpa using List.find?_some h1
    cases h2 : lookupRow rows₂ k with
    | none =>
      simp only [lookupRow] at h2
      have hno := List.find?_eq_none.mp h2 row
        (List.mem_reverse.mpr (hp.mem_iff.mp hmem1))
      exact absurd hkey (by simpa using hno)
    | some row' =>
      simp only [lookupRow] at h2
      have hmem2 : row' ∈ rows₁ :=
        hp.mem_iff.mpr (List.mem_reverse.mp (List.mem_of_find?_eq_some h2))
      have hkey' : row'.key = k := by simpa using List.find?_some h2
      rw [List.inj_on_of_nodup_map hn hmem1 hmem2 (hkey.trans hkey'.symm)]

theorem filter_revenueFilter_stable (r : DateRange) (s : List Order) :
    (s.filter (inWindow r)).filter (revenueFilter r)
      = s.filter (revenueFilter r) := by
  rw [List.filter_filter]
  apply List.filter_congr
  intro o _
  unfold revenueFilter
  cases hw : inWindow r o <;> simp [hw]

theorem filter_inWindow_stable (r : DateRange) (s : List Order) :
    (s.filter (inWindow r)).filter (inWindow r) = s.filter (inWindow r) := by
  rw [List.filter_filter]
  apply List.filter_congr
  intro o _
  cases hw : inWindow r o <;> simp [hw]

theorem getRevenueSummaryRange_eq (r : DateRange) (store : List Order) :
    getRevenueSummaryRange r store =
      ⟨r.startDate, r.endDate,
       ((store.filter (revenueFilter r)).map (fun o => o.finalTotal)).sum,
       (store.filter (revenueFilter r)).length,
       if 0 < (store.filter (revenueFilter r)).length then
         ((store.filter (revenueFilter r)).map (fun o => o.finalTotal)).sum
           / ((store.filter (revenueFilter r)).length : ℚ)
       else 0⟩ := by
  simp [getRevenueSummaryRange, toNumberOrZero_aggregateSum]

/-- C3: `getRevenueSummary` returns `totalRevenue` equal to the sum of
`finalTotal` over the filtered orders, `totalOrders` equal to their count,
and `averageOrderValue` equal to `totalRevenue / totalOrders` when
`totalOrders > 0` and to `0` when `totalOrders = 0`, never faulting on
division by zero. -/
theorem C3_revenueSummary_average (r : DateRange) (store : List Order) :
    (getRevenueSummaryRange r store).totalRevenue
        = ((store.filter (revenueFilter r)).map (fun o => o.finalTotal)).sum ∧
    (getRevenueSummaryRange r store).totalOrders
        = (store.filter (revenueFilter r)).length ∧
    ((getRevenueSummaryRange r store).totalOrders > 0 →
      (getRevenueSummaryRange r store).averageOrderValue
        = (getRevenueSummaryRange r store).totalRevenue
          / ((getRevenueSummaryRange r store).totalOrders : ℚ)) ∧
    ((getRevenueSummaryRange r store).totalOrders = 0 →
      (getRevenueSummaryRange r store).averageOrderValue = 0) := by
  rw [getRevenueSummaryRange_eq]
  refine ⟨rfl, rfl, ?_, ?_⟩ <;> intro h
  · simp only at h ⊢
    rw [if_pos h]
  · simp only at h ⊢
    rw [if_neg (by omega)]

/-- Witness for C3 at a one-order store and at an empty store. -/
theorem C3_revenueSummary_average_witness :
    ((getRevenueSummaryRange sampleRange [sampleOrder]).totalOrders > 0 ∧
      (getRevenueSummaryRange sampleRange [sampleOrder]).averageOrderValue
        = (getRevenueSummaryRange sampleRange [sampleOrder]).totalRevenue
          / ((getRevenueSummaryRange sampleRange [sampleOrder]).totalOrders : ℚ)) ∧
    ((getRevenueSummaryRange sampleRange []).totalOrders = 0 ∧
      (getRevenueSummaryRange sampleRange []).averageOrderValue = 0) :=
  ⟨⟨by decide,
    (C3_revenueSummary_average sampleRange [sampleOrder]).2.2.1 (by decide)⟩,
   ⟨by decide,
    (C3_revenueSummary_average sampleRange []).2.2.2 (by decide)⟩⟩

/-- C10: no numeric result field is ever null: a `null` store aggregate
(`aggregateSum` over an empty row set) is defaulted to `0`, the summary and
financial fields over an empty window are all `0`, and the three breakdowns
over an empty store are fully-zero enumerations of their enums. -/
theorem C10_no_null_defaults :
    (∀ f : Order → ℚ, aggregateSum f [] = none) ∧
    toNumberOrZero none = 0 ∧
    (∀ (r : DateRange) (store : List Order),
      store.filter (revenueFilter r) = [] →
        (getRevenueSummaryRange r store).totalRevenue = 0 ∧
        (getRevenueSummaryRange r store).totalOrders = 0 ∧
        (getRevenueSummaryRange r store).averageOrderValue = 0 ∧
        (getOrderFinancialsRange r store).totalShippingFee = 0 ∧
        (getOrderFinancialsRange r store).totalDiscountAmount = 0) ∧
    (∀ r : DateRange, getRevenueByPaymentMethodRange r [] =
        [⟨PaymentMethod.COD, 0, 0⟩, ⟨PaymentMethod.CREDIT_CARD, 0, 0⟩,
         ⟨PaymentMethod.VNPAY, 0, 0⟩]) ∧
    (∀ r : DateRange, getOrdersByStatusRange r [] =
        [⟨OrderStatus.PENDING, 0, 0⟩, ⟨OrderStatus.CONFIRMED, 0, 0⟩,
         ⟨OrderStatus.SHIPPED, 0, 0⟩, ⟨OrderStatus.DELIVERED, 0, 0⟩,
         ⟨OrderStatus.CANCELED, 0, 0⟩]) ∧
    (∀ r : DateRange, getOrdersByPaymentStatusRange r [] =
        [⟨PaymentStatus.PENDING, 0, 0⟩, ⟨PaymentStatus.PAID, 0, 0⟩,
         ⟨PaymentStatus.FAILED, 0, 0⟩, ⟨PaymentStatus.REFUNDED, 0, 0⟩]) := by
  refine ⟨fun _ => rfl, rfl, ?_, fun _ => rfl, fun _ => rfl, fun _ => rfl⟩
  intro r store h
  rw [getRevenueSummaryRange_eq]
  unfold getOrderFinancialsRange
  rw [h]
  simp [aggregateSum, toNumberOrZero]

/-- Witness for C10 over an empty window. -/
theorem C10_no_null_defaults_witness :
    (getRevenueSummaryRange sampleRange []).totalRevenue = 0 ∧
    (getOrderFinancialsRange sampleRange []).totalShippingFee = 0 :=
  ⟨(C10_no_null_defaults.2.2.1 sampleRange [] rfl).1,
   (C10_no_null_defaults.2.2.1 sampleRange [] rfl).2.2.2.1⟩

/-- C9: the entries of the three breakdowns appear in enum declaration order
— (COD, CREDIT_CARD, VNPAY), (PENDING, CONFIRMED, SHIPPED, DELIVERED,
CANCELED) and (PENDING, PAID, FAILED, REFUNDED) — for every grouped row list
and every store. -/
theorem C9_enum_declaration_order :
    (∀ rows : List (GroupRow PaymentMethod),
      (revenueByPaymentMethodFromRows rows).map (fun e => e.paymentMethod)
        = [PaymentMethod.COD, PaymentMethod.CREDIT_CARD, PaymentMethod.VNPAY]) ∧
    (∀ rows : List (GroupRow OrderStatus),
      (ordersByStatusFromRows rows).map (fun e => e.status)
        = [OrderStatus.PENDING, OrderStatus.CONFIRMED, OrderStatus.SHIPPED,
           OrderStatus.DELIVERED, OrderStatus.CANCELED]) ∧
    (∀ rows : List (GroupRow PaymentStatus),
      (ordersByPaymentStatusFromRows rows).map (fun e => e.paymentStatus)
        = [PaymentStatus.PENDING, PaymentStatus.PAID, PaymentStatus.FAILED,
           PaymentStatus.REFUNDED]) ∧
    (∀ (r : DateRange) (store : List Order),
      (getRevenueByPaymentMethodRange r store).map (fun e => e.paymentMethod)
        = [PaymentMethod.COD, PaymentMethod.CREDIT_CARD, PaymentMethod.VNPAY] ∧
      (getOrdersByStatusRange r store).map (fun e => e.status)
        = [OrderStatus.PENDING, OrderStatus.CONFIRMED, OrderStatus.SHIPPED,
           OrderStatus.DELIVERED, OrderStatus.CANCELED] ∧
      (getOrdersByPaymentStatusRange r store).map (fun e => e.paymentStatus)
        = [PaymentStatus.PENDING, PaymentStatus.PAID, PaymentStatus.FAILED,
           PaymentStatus.REFUNDED]) :=
  ⟨fun _ => rfl, fun _ => rfl, fun _ => rfl, fun _ _ => ⟨rfl, rfl, rfl⟩⟩

/-- C4: `getOrdersByStatus` and `getOrdersByPaymentStatus` group every
in-window order with no status filter: for each enum value the reported
count and value are exactly the count and `finalTotal`-sum of the in-window
orders carrying it, and the counts and values across all groups add up to
all in-window orders, so each in-window order lands in exactly one group. -/
theorem C4_group_all_statuses (r : DateRange) (store : List Order) :
    (∀ st, countForStatus (getOrdersByStatusRange r store) st
      = ((store.filter (inWindow r)).filter
          (fun o => decide (o.status = st))).length) ∧
    (∀ st, valueForStatus (getOrdersByStatusRange r store) st
      = (((store.filter (inWindow r)).filter
          (fun o => decide (o.status = st))).map (fun o => o.finalTotal)).sum) ∧
    (∀ st, countForPaymentStatus (getOrdersByPaymentStatusRange r store) st
      = ((store.filter (inWindow r)).filter
          (fun o => decide (o.paymentStatus = st))).length) ∧
    (∀ st, valueForPaymentStatus (getOrdersByPaymentStatusRange r store) st
      = (((store.filter (inWindow r)).filter
          (fun o => decide (o.paymentStatus = st))).map
            (fun o => o.finalTotal)).sum) ∧
    ((getOrdersByStatusRange r store).map (fun e => e.orderCount)).sum
      = (store.filter (inWindow r)).length ∧
    ((getOrdersByStatusRange r store).map (fun e => e.totalValue)).sum
      = ((store.filter (inWindow r)).map (fun o => o.finalTotal)).sum ∧
    ((getOrdersByPaymentStatusRange r store).map (fun e => e.orderCount)).sum
      = (store.filter (inWindow r)).length ∧
    ((getOrdersByPaymentStatusRange r store).map (fun e => e.totalValue)).sum
      = ((store.filter (inWindow r)).map (fun o => o.finalTotal)).sum :=
  ⟨countForStatus_range r store, valueForStatus_range r store,
   countForPaymentStatus_range r store, valueForPaymentStatus_range r store,
   ordersByStatus_total_count r store, ordersByStatus_total_value r store,
   ordersByPaymentStatus_total_count r store,
   ordersByPaymentStatus_total_value r store⟩

theorem filter_relevant_stable (r : DateRange) (s : List Order) :
    (s.filter (fun o => relevantStatuses.contains o.status)).filter
        (revenueFilter r)
      = s.filter (revenueFilter r) := by
  rw [List.filter_filter]
  apply List.filter_congr
  intro o _
  unfold revenueFilter
  cases hc : relevantStatuses.contains o.status <;> simp [hc]

/-- C2: `getRevenueSummary` and `getOrderFinancials` aggregate only orders
with status CONFIRMED, SHIPPED or DELIVERED: both are unchanged when the
store is restricted to those statuses, a PENDING or CANCELED order in the
window contributes nothing to either, yet `getOrdersByStatus` counts it. -/
theorem C2_nonrevenue_contributes_zero (r : DateRange) (store : List Order)
    (o : Order)
    (h : o.status = OrderStatus.PENDING ∨ o.status = OrderStatus.CANCELED) :
    getRevenueSummaryRange r store
        = getRevenueSummaryRange r
            (store.filter (fun o' => relevantStatuses.contains o'.status)) ∧
    getOrderFinancialsRange r store
        = getOrderFinancialsRange r
            (store.filter (fun o' => relevantStatuses.contains o'.status)) ∧
    getRevenueSummaryRange r (o :: store) = getRevenueSummaryRange r store ∧
    getOrderFinancialsRange r (o :: store) = getOrderFinancialsRange r store ∧
    (inWindow r o = true →
      countForStatus (getOrdersByStatusRange r (o :: store)) o.status
        = countForStatus (getOrdersByStatusRange r store) o.status + 1) := by
  have hrf : revenueFilter r o = false := by
    rcases h with h | h <;> simp [revenueFilter, relevantStatuses, h]
  refine ⟨?_, ?_, ?_, ?_, ?_⟩
  · unfold getRevenueSummaryRange
    rw [filter_relevant_stable]
  · unfold getOrderFinancialsRange
    rw [filter_relevant_stable]
  · unfold getRevenueSummaryRange
    rw [List.filter_cons, if_neg (by simp [hrf])]
  · unfold getOrderFinancialsRange
    rw [List.filter_cons, if_neg (by simp [hrf])]
  · intro hw
    rw [countForStatus_range, countForStatus_range, List.filter_cons,
      if_pos (by simp [hw]), List.filter_cons, if_pos (by simp)]
    simp

/-- Witness for C2: a PENDING order in-window leaves the summary unchanged
but bumps the PENDING breakdown count. -/
theorem C2_nonrevenue_contributes_zero_witness :
    getRevenueSummaryRange sampleRange [samplePending]
        = getRevenueSummaryRange sampleRange [] ∧
    countForStatus (getOrdersByStatusRange sampleRange [samplePending])
        OrderStatus.PENDING
      = countForStatus (getOrdersByStatusRange sampleRange [])
          OrderStatus.PENDING + 1 :=
  ⟨(C2_nonrevenue_contributes_zero sampleRange [] samplePending
      (Or.inl rfl)).2.2.1,
   (C2_nonrevenue_contributes_zero sampleRange [] samplePending
      (Or.inl rfl)).2.2.2.2 (by decide)⟩

/-- C6: the window filter is inclusive at both bounds
(`createdAt >= start AND createdAt <= end`), orders strictly outside are
excluded, and every one of the five operations depends only on the in-window
orders of the store. -/
theorem C6_inclusive_bounds (r : DateRange) (o : Order) (store : List Order) :
    (inWindow r o = true ↔
      r.startDate ≤ o.createdAt ∧ o.createdAt ≤ r.endDate) ∧
    (o.createdAt = r.startDate → r.startDate ≤ r.endDate →
      inWindow r o = true) ∧
    (o.createdAt = r.endDate → r.startDate ≤ r.endDate →
      inWindow r o = true) ∧
    (o.createdAt < r.startDate → inWindow r o = false) ∧
    (r.endDate < o.createdAt → inWindow r o = false) ∧
    getRevenueSummaryRange r store
      = getRevenueSummaryRange r (store.filter (inWindow r)) ∧
    getRevenueByPaymentMethodRange r store
      = getRevenueByPaymentMethodRange r (store.filter (inWindow r)) ∧
    getOrdersByStatusRange r store
      = getOrdersByStatusRange r (store.filter (inWindow r)) ∧
    getOrdersByPaymentStatusRange r store
      = getOrdersByPaymentStatusRange r (store.filter (inWindow r)) ∧
    getOrderFinancialsRange r store
      = getOrderFinancialsRange r (store.filter (inWindow r)) := by
  refine ⟨?_, ?_, ?_, ?_, ?_, ?_, ?_, ?_, ?_, ?_⟩
  · simp [inWindow]
  · intro he hle
    simp [inWindow, he, hle]
  · intro he hle
    simp [inWindow, he, hle]
  · intro hlt
    simp [inWindow]
    omega
  · intro hlt
    simp [inWindow]
    omega
  · unfold getRevenueSummaryRange
    rw [filter_revenueFilter_stable]
  · unfold getRevenueByPaymentMethodRange
    rw [filter_revenueFilter_stable]
  · unfold getOrdersByStatusRange
    rw [filter_inWindow_stable]
  · unfold getOrdersByPaymentStatusRange
    rw [filter_inWindow_stable]
  · unfold getOrderFinancialsRange
    rw [filter_revenueFilter_stable]

/-- Witness for C6: an order exactly on the window start is in-window, one
strictly before it is not. -/
theorem C6_inclusive_bounds_witness :
    inWindow sampleRange sampleEdgeOrder = true ∧
    inWindow sampleRange sampleEarlyOrder = false :=
  ⟨(C6_inclusive_bounds sampleRange sampleEdgeOrder []).2.1 rfl (by decide),
   (C6_inclusive_bounds sampleRange sampleEarlyOrder []).2.2.2.1 (by decide)⟩

/-- C1: each breakdown returns exactly one entry per enum value, for any
grouped row list the store could return, and an enum value with no matching
in-window orders appears with zero revenue/value and zero count. -/
theorem C1_normalized_breakdowns (r : DateRange) (store : List Order) :
    (∀ (rows : List (GroupRow PaymentMethod)) (m : PaymentMethod),
      ((revenueByPaymentMethodFromRows rows).filter
        (fun e => decide (e.paymentMethod = m))).length = 1 ∧
      ((∀ row ∈ rows, ¬row.key = m) →
        (⟨m, 0, 0⟩ : RevenueByPaymentMethodEntry)
          ∈ revenueByPaymentMethodFromRows rows)) ∧
    (∀ (rows : List (GroupRow OrderStatus)) (st : OrderStatus),
      ((ordersByStatusFromRows rows).filter
        (fun e => decide (e.status = st))).length = 1 ∧
      ((∀ row ∈ rows, ¬row.key = st) →
        (⟨st, 0, 0⟩ : OrdersByStatusEntry) ∈ ordersByStatusFromRows rows)) ∧
    (∀ (rows : List (GroupRow PaymentStatus)) (st : PaymentStatus),
      ((ordersByPaymentStatusFromRows rows).filter
        (fun e => decide (e.paymentStatus = st))).length = 1 ∧
      ((∀ row ∈ rows, ¬row.key = st) →
        (⟨st, 0, 0⟩ : OrdersByPaymentStatusEntry)
          ∈ ordersByPaymentStatusFromRows rows)) ∧
    (∀ m : PaymentMethod,
      store.filter (fun o => revenueFilter r o && decide (o.paymentMethod = m))
          = [] →
        (⟨m, 0, 0⟩ : RevenueByPaymentMethodEntry)
          ∈ getRevenueByPaymentMethodRange r store) ∧
    (∀ st : OrderStatus,
      store.filter (fun o => inWindow r o && decide (o.status = st)) = [] →
        (⟨st, 0, 0⟩ : OrdersByStatusEntry) ∈ getOrdersByStatusRange r store) ∧
    (∀ st : PaymentStatus,
      store.filter (fun o => inWindow r o && decide (o.paymentStatus = st))
          = [] →
        (⟨st, 0, 0⟩ : OrdersByPaymentStatusEntry)
          ∈ getOrdersByPaymentStatusRange r store) := by
  refine ⟨fun rows m => ⟨rbpm_filter_length rows m, rbpm_zero_entry rows m⟩,
    fun rows st => ⟨obs_filter_length rows st, obs_zero_entry rows st⟩,
    fun rows st => ⟨obps_filter_length rows st, obps_zero_entry rows st⟩,
    ?_, ?_, ?_⟩
  · intro m h
    apply rbpm_zero_entry
    apply groupByKey_no_key
    intro o ho hkey
    obtain ⟨hos, hrf⟩ := List.mem_filter.mp ho
    exact (List.filter_eq_nil_iff.mp h) o hos (by simp [hrf, hkey])
  · intro st h
    apply obs_zero_entry
    apply groupByKey_no_key
    intro o ho hkey
    obtain ⟨hos, hrf⟩ := List.mem_filter.mp ho
    exact (List.filter_eq_nil_iff.mp h) o hos (by simp [hrf, hkey])
  · intro st h
    apply obps_zero_entry
    apply groupByKey_no_key
    intro o ho hkey
    obtain ⟨hos, hrf⟩ := List.mem_filter.mp ho
    exact (List.filter_eq_nil_iff.mp h) o hos (by simp [hrf, hkey])

/-- Witness for C1: zero entries appear for enums absent from the data. -/
theorem C1_normalized_breakdowns_witness :
    (⟨PaymentMethod.COD, 0, 0⟩ : RevenueByPaymentMethodEntry)
        ∈ revenueByPaymentMethodFromRows [] ∧
    (⟨OrderStatus.CANCELED, 0, 0⟩ : OrdersByStatusEntry)
        ∈ getOrdersByStatusRange sampleRange [] :=
  ⟨((C1_normalized_breakdowns sampleRange []).1 [] PaymentMethod.COD).2
      (by simp),
   (C1_normalized_breakdowns sampleRange []).2.2.2.2.1 OrderStatus.CANCELED
      rfl⟩

/-- C8: each operation is deterministic — equal windows and equal store
contents give identical results — and the three breakdowns are additionally
independent of the order in which the store returns its grouped rows. -/
theorem C8_deterministic (r : DateRange) (s₁ s₂ : List Order) (h : s₁ = s₂) :
    (getRevenueSummaryRange r s₁ = getRevenueSummaryRange r s₂ ∧
     getRevenueByPaymentMethodRange r s₁ = getRevenueByPaymentMethodRange r s₂ ∧
     getOrdersByStatusRange r s₁ = getOrdersByStatusRange r s₂ ∧
     getOrdersByPaymentStatusRange r s₁ = getOrdersByPaymentStatusRange r s₂ ∧
     getOrderFinancialsRange r s₁ = getOrderFinancialsRange r s₂) ∧
    (∀ rows₁ rows₂ : List (GroupRow PaymentMethod), rows₁.Perm rows₂ →
      (rows₁.map GroupRow.key).Nodup →
      revenueByPaymentMethodFromRows rows₁
        = revenueByPaymentMethodFromRows rows₂) ∧
    (∀ rows₁ rows₂ : List (GroupRow OrderStatus), rows₁.Perm rows₂ →
      (rows₁.map GroupRow.key).Nodup →
      ordersByStatusFromRows rows₁ = ordersByStatusFromRows rows₂) ∧
    (∀ rows₁ rows₂ : List (GroupRow PaymentStatus), rows₁.Perm rows₂ →
      (rows₁.map GroupRow.key).Nodup →
      ordersByPaymentStatusFromRows rows₁
        = ordersByPaymentStatusFromRows rows₂) := by
  subst h
  refine ⟨⟨rfl, rfl, rfl, rfl, rfl⟩, ?_, ?_, ?_⟩
  · intro rows₁ rows₂ hp hn
    unfold revenueByPaymentMethodFromRows
    apply List.map_congr_left
    intro m _
    rw [lookupRow_perm rows₁ rows₂ hp hn m]
  · intro rows₁ rows₂ hp hn
    unfold ordersByStatusFromRows
    apply List.map_congr_left
    intro st _
    rw [lookupRow_perm rows₁ rows₂ hp hn st]
  · intro rows₁ rows₂ hp hn
    unfold ordersByPaymentStatusFromRows
    apply List.map_congr_left
    intro st _
    rw [lookupRow_perm rows₁ rows₂ hp hn st]

/-- Witness for C8: the same concrete query twice, and a reversed row list
yielding the same breakdown. -/
theorem C8_deterministic_witness :
    getRevenueSummaryRange sampleRange [sampleOrder]
        = getRevenueSummaryRange sampleRange [sampleOrder] ∧
    revenueByPaymentMethodFromRows sampleRows
        = revenueByPaymentMethodFromRows sampleRows.reverse :=
  ⟨(C8_deterministic sampleRange [sampleOrder] [sampleOrder] rfl).1.1,
   (C8_deterministic sampleRange [] [] rfl).2.1 sampleRows
      sampleRows.reverse (List.reverse_perm sampleRows).symm (by decide)⟩

/-- C7: with period `custom`, period resolution fails with
`InvalidRangeError` when `startDate` or `endDate` is missing, when either is
unparseable as a calendar date, or when `startDate > endDate`; every
aggregation operation then fails with the same error. -/
theorem C7_custom_invalid_range (now : Int) (store : List Order)
    (sd ed : Option String)
    (h : sd = none ∨ ed = none ∨
      (∃ ss es, sd = some ss ∧ ed = some es ∧
        (parseDate ss = none ∨ parseDate es = none)) ∨
      (∃ ss es a b, sd = some ss ∧ ed = some es ∧
        parseDate ss = some a ∧ parseDate es = some b ∧
        dateToTimestamp b < dateToTimestamp a)) :
    getDateRangeFromPeriod now (some Period.custom) sd ed
        = Except.error StatsError.InvalidRangeError ∧
    getRevenueSummary now ⟨some Period.custom, sd, ed⟩ store
        = Except.error StatsError.InvalidRangeError ∧
    getRevenueByPaymentMethod now ⟨some Period.custom, sd, ed⟩ store
        = Except.error StatsError.InvalidRangeError ∧
    getOrdersByStatus now ⟨some Period.custom, sd, ed⟩ store
        = Except.error StatsError.InvalidRangeError ∧
    getOrdersByPaymentStatus now ⟨some Period.custom, sd, ed⟩ store
        = Except.error StatsError.InvalidRangeError ∧
    getOrderFinancials now ⟨some Period.custom, sd, ed⟩ store
        = Except.error StatsError.InvalidRangeError := by
  have hres : getDateRangeFromPeriod now (some Period.custom) sd ed
      = Except.error StatsError.InvalidRangeError := by
    rcases h with h | h | ⟨ss, es, hs, he, hp⟩ |
        ⟨ss, es, a, b, hs, he, hpa, hpb, hlt⟩
    · subst h
      cases ed <;> rfl
    · subst h
      cases sd <;> rfl
    · subst hs
      subst he
      rcases hp with hp | hp
      · cases hq : parseDate es <;> simp [getDateRangeFromPeriod, hp, hq]
      · cases hq : parseDate ss <;> simp [getDateRangeFromPeriod, hp, hq]
    · subst hs
      subst he
      simp [getDateRangeFromPeriod, hpa, hpb, hlt]
  exact ⟨hres,
    by simp [getRevenueSummary, hres, Except.map],
    by simp [getRevenueByPaymentMethod, hres, Except.map],
    by simp [getOrdersByStatus, hres, Except.map],
    by simp [getOrdersByPaymentStatus, hres, Except.map],
    by simp [getOrderFinancials, hres, Except.map]⟩

/-- Witness for C7: a custom period whose start date is after its end date. -/
theorem C7_custom_invalid_range_witness :
    getDateRangeFromPeriod 0 (some Period.custom)
        (some "2024-01-02") (some "2024-01-01")
      = Except.error StatsError.InvalidRangeError ∧
    getRevenueSummary 0 ⟨some Period.custom,
        some "2024-01-02", some "2024-01-01"⟩ []
      = Except.error StatsError.InvalidRangeError :=
  ⟨(C7_custom_invalid_range 0 [] (some "2024-01-02") (some "2024-01-01")
      (Or.inr (Or.inr (Or.inr ⟨"2024-01-02", "2024-01-01", ⟨2024, 1, 2⟩,
        ⟨2024, 1, 1⟩, rfl, rfl, by decide, by decide, by decide⟩)))).1,
   (C7_custom_invalid_range 0 [] (some "2024-01-02") (some "2024-01-01")
      (Or.inr (Or.inr (Or.inr ⟨"2024-01-02", "2024-01-01", ⟨2024, 1, 2⟩,
        ⟨2024, 1, 1⟩, rfl, rfl, by decide, by decide, by decide⟩)))).2.1⟩

end CoffeeCraft
